import Mathlib

/-!
Shallow embedding of `src/weather_agent/tools/statistics.py` from the
weather-ensemble-agent repository, together with theorems settling the
specification claims about the ensemble statistics and agreement engine.

Modelling conventions:
* Python floats are modelled as rationals (`ℚ`); `round(x, nd)` is modelled
  as round-half-to-even on rationals (`roundHalfEven`).
* Python dicts are association lists with unique keys in insertion order.
  A model-data dict maps string keys to numeric series, string series
  (`times` / `dates`), or a plain string (the `error` value).
* Python exceptions crossing the function boundary are modelled by the
  `PyResult.exn` constructor; a returned `{"error": msg}` dict is
  `PyResult.errorDict`; any other returned dict is `PyResult.ok`.
* `math`-library square root (inside `statistics.stdev`) is irrational, so it
  is modelled by a deterministic rational approximation (`ratSqrt`); no claim
  depends on the numeric value of a standard deviation.
* The JSON-string input path (`json.loads`) is outside the model: inputs are
  structured datasets, as produced by the fetch layer.
-/

/-- Python value stored under a key of a model-data dict: a numeric series,
a string series (`times`/`dates`), or a plain string (used by `error`). -/
inductive PyVal where
  | nums (l : List ℚ)
  | strs (l : List String)
  | text (s : String)
deriving DecidableEq

/-- A Python dict from string keys to values, as an insertion-ordered
association list with unique keys. -/
abbrev PyDict := List (String × PyVal)

/-- A forecast dataset: mapping from model name to its model-data dict. -/
abbrev ForecastData := List (String × PyDict)

/-- Dict lookup (`d[k]` / `d.get(k)`), first matching key. -/
def lookupD {α : Type} : List (String × α) → String → Option α
  | [], _ => none
  | (k, v) :: rest, key => if k = key then some v else lookupD rest key

/-- Python `k in d` membership test on a dict. -/
def dictContains (d : PyDict) (k : String) : Bool := (lookupD d k).isSome

/-- Python `list(d.keys())`. -/
def dictKeys (d : PyDict) : List String := d.map Prod.fst

/-- Python `len` of a stored value (`len` of a list or of a string). -/
def pyValLen : PyVal → ℕ
  | .nums l => l.length
  | .strs l => l.length
  | .text s => s.length

/-- Extract a numeric series; `none` models a value whose elements are not
numbers (arithmetic on it raises `TypeError` in Python). -/
def asNums : PyVal → Option (List ℚ)
  | .nums l => some l
  | _ => none

/-- Extract the numeric series of every collected model; `none` as soon as one
of them is not numeric (the per-timestep arithmetic would raise `TypeError`). -/
def allNums : List (String × PyVal) → Option (List (List ℚ))
  | [] => some []
  | (_, v) :: rest =>
    match asNums v, allNums rest with
    | some c, some cs => some (c :: cs)
    | _, _ => none

/-- Round-half-to-even to an integer, the tie-breaking rule of Python
`round`. -/
def roundHalfEven (q : ℚ) : ℤ :=
  if q - ⌊q⌋ < 1/2 then ⌊q⌋
  else if 1/2 < q - ⌊q⌋ then ⌊q⌋ + 1
  else if ⌊q⌋ % 2 = 0 then ⌊q⌋ else ⌊q⌋ + 1

/-- Python `round(q, 2)`. -/
def round2 (q : ℚ) : ℚ := (roundHalfEven (q * 100) : ℚ) / 100

/-- Python `round(q, 3)`. -/
def round3 (q : ℚ) : ℚ := (roundHalfEven (q * 1000) : ℚ) / 1000

/-- Python `statistics.mean`. -/
def pyMean (l : List ℚ) : ℚ := l.sum / l.length

/-- Python `sorted` on a numeric list. -/
def pySorted (l : List ℚ) : List ℚ := l.insertionSort (· ≤ ·)

/-- Python `statistics.median`: middle element of the sorted data, or the
mean of the two middle elements for even length. -/
def pyMedian (l : List ℚ) : ℚ :=
  if l.length % 2 = 1 then (pySorted l).getD (l.length / 2) 0
  else ((pySorted l).getD (l.length / 2 - 1) 0 + (pySorted l).getD (l.length / 2) 0) / 2

/-- Python `min` of a nonempty list (junk value 0 on `[]`, a case the code
never reaches because at least one model is present). -/
def listMin : List ℚ → ℚ
  | [] => 0
  | x :: xs => xs.foldl min x

/-- Python `max` of a nonempty list (junk value 0 on `[]`). -/
def listMax : List ℚ → ℚ
  | [] => 0
  | x :: xs => xs.foldl max x

/-- Fuel-driven Newton iteration for the integer square root; the fuel makes
the recursion structural so all proofs can evaluate it. -/
def isqrtAux : ℕ → ℕ → ℕ → ℕ
  | 0, _, g => g
  | fuel + 1, n, g =>
    if (g + n / g) / 2 < g then isqrtAux fuel n ((g + n / g) / 2) else g

/-- Integer square root (floor), via `isqrtAux`. -/
def isqrt (n : ℕ) : ℕ := if n ≤ 1 then n else isqrtAux n n (n / 2 + 1)

/-- Deterministic rational approximation of the float square root used by
`statistics.stdev`; exact to six decimal digits. No claim depends on the
numeric value of a standard deviation, only on the `n < 2` guard. -/
def ratSqrt (q : ℚ) : ℚ :=
  if q ≤ 0 then 0
  else (isqrt (q.num.toNat * q.den * 10 ^ 12) : ℚ) / ((q.den : ℚ) * 10 ^ 6)

/-- Sample variance with Bessel correction, as in `statistics.stdev`. -/
def sampleVariance (l : List ℚ) : ℚ :=
  (l.map (fun x => (x - pyMean l) ^ 2)).sum / ((l.length : ℚ) - 1)

/-- Python `statistics.stdev` (sample standard deviation). -/
def pyStdev (l : List ℚ) : ℚ := ratSqrt (sampleVariance l)

/-- Cut-point index `j` of `statistics.quantiles(..., n=4, method="exclusive")`
for cut `i`: `i*(ld+1)//4` clamped to `1..ld-1` (CPython `Lib/statistics.py`). -/
def excJ (ld i : ℕ) : ℕ :=
  if i * (ld + 1) / 4 < 1 then 1
  else if i * (ld + 1) / 4 > ld - 1 then ld - 1
  else i * (ld + 1) / 4

/-- Interpolation weight `delta = i*m - j*n` of the exclusive quantile method,
recomputed after clamping `j`, hence possibly negative or above 4. -/
def excDelta (ld i : ℕ) : ℤ := (i : ℤ) * (ld + 1) - 4 * excJ ld i

/-- Linear interpolation `(data[j-1]*(n-delta) + data[j]*delta)/n` with `n=4`. -/
def interpAt (data : List ℚ) (j : ℕ) (delta : ℤ) : ℚ :=
  (data.getD (j - 1) 0 * (4 - (delta : ℚ)) + data.getD j 0 * (delta : ℚ)) / 4

/-- Cut point `i` (1-based) of the exclusive quartile method on sorted data. -/
def excQuantile (data : List ℚ) (i : ℕ) : ℚ :=
  interpAt data (excJ data.length i) (excDelta data.length i)

/-- Python `statistics.quantiles(l, n=4)` (exclusive method): the three
quartile cut points of the sorted data. Requires at least two data points in
Python; the caller models that `StatisticsError` separately. -/
def pyQuantiles4 (l : List ℚ) : List ℚ :=
  (List.range 3).map (fun k => excQuantile (pySorted l) (k + 1))

/-- Line 9-11 of `statistics.py`: a model-data dict is daily when it has a
`dates` key or a `temperature_max` key. -/
def _is_daily_data (md : PyDict) : Bool :=
  dictContains md "dates" || dictContains md "temperature_max"

/-- Lines 67-78 (and 221-232) of `statistics.py`: resolve the abstract
variable name to the concrete field name for the detected shape. -/
def resolveFieldName (isDaily : Bool) (varName : String) (useMax : Bool) : String :=
  if isDaily then
    if varName = "temperature" then (if useMax then "temperature_max" else "temperature_min")
    else if varName = "wind_speed" then "wind_speed_max"
    else if varName = "precipitation" then "precipitation"
    else varName
  else varName

/-- Lines 54-58: keep the models whose dict has no `error` key (entries that
are not dicts are likewise dropped by the code and are outside this model). -/
def validModelsOf (fd : ForecastData) : ForecastData :=
  fd.filter (fun p => !(dictContains p.2 "error"))

/-- Line 88 / 241: `model_data.get("times") or model_data.get("dates", [])` —
a missing or empty (falsy) `times` list falls back to `dates`, then to `[]`. -/
def pyGetTimes (md : PyDict) : List String :=
  match lookupD md "times" with
  | some (.strs l) =>
    if l.isEmpty then
      match lookupD md "dates" with
      | some (.strs d) => d
      | _ => []
    else l
  | _ =>
    match lookupD md "dates" with
    | some (.strs d) => d
    | _ => []

/-- Lines 84-88: the valid models that carry the resolved field, paired with
the stored field value, in iteration order. -/
def fieldModelValues (vms : ForecastData) (field : String) : List (String × PyVal) :=
  vms.filterMap (fun p => (lookupD p.2 field).map (fun v => (p.1, v)))

/-- The valid models whose dict contains the resolved field. -/
def fieldEntries (vms : ForecastData) (field : String) : ForecastData :=
  vms.filter (fun p => dictContains p.2 field)

/-- Lines 87-88: the representative time axis, taken from the first valid
model that carries the resolved field. -/
def statsTimes (vms : ForecastData) (field : String) : List String :=
  match fieldEntries vms field with
  | [] => []
  | e0 :: _ => pyGetTimes e0.2

/-- Lines 91-96: the `FieldNotFound` error message, naming the attempted field
and the keys of the first valid model (Python repr punctuation elided). -/
def fieldNotFoundMsg (field : String) (keys : List String) : String :=
  "Field " ++ field ++ " not found in model data. Available keys: " ++
    String.intercalate ", " keys

/-- Modelled Python exception escaping a function uncaught. -/
inductive PyExn where
  | statisticsError (msg : String)
  | indexError
  | typeError
  | zeroDivisionError
deriving DecidableEq

/-- Outcome of one of the module's functions: a success dict, an
`{"error": msg}` dict, or an uncaught Python exception. -/
inductive PyResult (α : Type) where
  | ok (val : α)
  | errorDict (msg : String)
  | exn (e : PyExn)
deriving DecidableEq

/-- Success payload of `calculate_ensemble_statistics` (lines 105-120);
`varName` models the `variable` key. -/
structure EnsembleStats where
  varName : String
  field : String
  is_daily : Bool
  num_models : ℕ
  models : List String
  times : List String
  ensemble_mean : List ℚ
  ensemble_median : List ℚ
  ensemble_std : List ℚ
  ensemble_min : List ℚ
  ensemble_max : List ℚ
  percentile_25 : List ℚ
  percentile_75 : List ℚ
  spread : List ℚ
deriving DecidableEq

/-- Line 124: the cross-model value vector at timestep `i`. -/
def valuesAtTime (cols : List (List ℚ)) (i : ℕ) : List ℚ :=
  cols.map (fun c => c.getD i 0)

/-- Lines 105-146: the success payload, with every per-timestep list built by
the loop over `range num_timesteps`. -/
def mkEnsembleStats (varName field : String) (is_daily : Bool) (models : List String)
    (times : List String) (cols : List (List ℚ)) (n : ℕ) : EnsembleStats :=
  { varName := varName, field := field, is_daily := is_daily,
    num_models := models.length, models := models, times := times,
    ensemble_mean := (List.range n).map (fun i => round2 (pyMean (valuesAtTime cols i))),
    ensemble_median := (List.range n).map (fun i => round2 (pyMedian (valuesAtTime cols i))),
    ensemble_std := (List.range n).map (fun i =>
      if 1 < (valuesAtTime cols i).length then round2 (pyStdev (valuesAtTime cols i)) else 0),
    ensemble_min := (List.range n).map (fun i => round2 (listMin (valuesAtTime cols i))),
    ensemble_max := (List.range n).map (fun i => round2 (listMax (valuesAtTime cols i))),
    percentile_25 := (List.range n).map (fun i =>
      round2 ((pyQuantiles4 (valuesAtTime cols i)).getD 0 0)),
    percentile_75 := (List.range n).map (fun i =>
      round2 ((pyQuantiles4 (valuesAtTime cols i)).getD 2 0)),
    spread := (List.range n).map (fun i =>
      round2 (listMax (valuesAtTime cols i) - listMin (valuesAtTime cols i))) }

/-- Lines 32-146: `calculate_ensemble_statistics(forecast_data, variable,
use_max)`. The per-timestep loop raises `TypeError` on non-numeric series and
`StatisticsError` inside `statistics.quantiles` when fewer than two models
carry the field (and at least one timestep exists). -/
def calculate_ensemble_statistics (fd : ForecastData) (varName : String) (use_max : Bool) :
    PyResult EnsembleStats :=
  match validModelsOf fd with
  | [] => .errorDict "No valid model data available"
  | fm :: rest =>
    match fieldModelValues (fm :: rest) (resolveFieldName (_is_daily_data fm.2) varName use_max) with
    | [] => .errorDict (fieldNotFoundMsg
        (resolveFieldName (_is_daily_data fm.2) varName use_max) (dictKeys fm.2))
    | m0 :: mrest =>
      match List.find? (fun p => pyValLen p.2 != pyValLen m0.2) (m0 :: mrest) with
      | some bad => .errorDict ("Model " ++ bad.1 ++ " has inconsistent number of timesteps")
      | none =>
        if pyValLen m0.2 = 0 then
          .ok (mkEnsembleStats varName
            (resolveFieldName (_is_daily_data fm.2) varName use_max) (_is_daily_data fm.2)
            ((m0 :: mrest).map Prod.fst)
            (statsTimes (fm :: rest) (resolveFieldName (_is_daily_data fm.2) varName use_max))
            [] (pyValLen m0.2))
        else
          match allNums (m0 :: mrest) with
          | none => .exn .typeError
          | some cols =>
            if cols.length < 2 then .exn (.statisticsError "must have at least two data points")
            else
              .ok (mkEnsembleStats varName
                (resolveFieldName (_is_daily_data fm.2) varName use_max) (_is_daily_data fm.2)
                ((m0 :: mrest).map Prod.fst)
                (statsTimes (fm :: rest) (resolveFieldName (_is_daily_data fm.2) varName use_max))
                cols (pyValLen m0.2))

/-- Success payload entry of the high/low agreement period lists
(lines 258-272). -/
structure AgreementPeriod where
  time : String
  spread : ℚ
  agreement_score : ℚ
deriving DecidableEq

/-- Success payload of `calculate_model_agreement` (lines 274-287);
`varName` models the `variable` key. -/
structure AgreementResult where
  varName : String
  field : String
  num_models : ℕ
  models : List String
  threshold : ℚ
  mean_agreement : ℚ
  min_agreement : ℚ
  max_agreement : ℚ
  high_agreement_count : ℕ
  low_agreement_count : ℕ
  high_agreement_periods : List AgreementPeriod
  low_agreement_periods : List AgreementPeriod
deriving DecidableEq

/-- Line 253: `agreement_score = max(0.0, 1.0 - (spread / (threshold * 2)))`. -/
def agreementScore (threshold spread : ℚ) : ℚ := max 0 (1 - spread / (threshold * 2))

/-- Line 260 / 268: `times[i] if i < len(times) else f"timestep_{i}"`. -/
def timeLabel (times : List String) (i : ℕ) : String :=
  if i < times.length then times.getD i "" else "timestep_" ++ toString i

/-- Line 249: per-timestep spread `max - min` across the included models. -/
def spreadAt (cols : List (List ℚ)) (i : ℕ) : ℚ :=
  listMax (valuesAtTime cols i) - listMin (valuesAtTime cols i)

/-- One period descriptor appended at lines 258-264 / 266-272. -/
def mkPeriod (times : List String) (threshold : ℚ) (cols : List (List ℚ)) (i : ℕ) :
    AgreementPeriod :=
  { time := timeLabel times i, spread := round2 (spreadAt cols i),
    agreement_score := round3 (agreementScore threshold (spreadAt cols i)) }

/-- Line 254: the per-timestep scores, each rounded to three digits. -/
def agreementScores (threshold : ℚ) (cols : List (List ℚ)) (n : ℕ) : List ℚ :=
  (List.range n).map (fun i => round3 (agreementScore threshold (spreadAt cols i)))

/-- Lines 257-264: the timesteps whose raw score is at least 0.8, in order. -/
def highPeriodsAll (times : List String) (threshold : ℚ) (cols : List (List ℚ)) (n : ℕ) :
    List AgreementPeriod :=
  (List.range n).filterMap (fun i =>
    if (8 : ℚ)/10 ≤ agreementScore threshold (spreadAt cols i)
    then some (mkPeriod times threshold cols i) else none)

/-- Lines 265-272: the `elif` branch — timesteps whose raw score is not at
least 0.8 and is at most 0.5, in order. -/
def lowPeriodsAll (times : List String) (threshold : ℚ) (cols : List (List ℚ)) (n : ℕ) :
    List AgreementPeriod :=
  (List.range n).filterMap (fun i =>
    if (8 : ℚ)/10 ≤ agreementScore threshold (spreadAt cols i) then none
    else if agreementScore threshold (spreadAt cols i) ≤ (5 : ℚ)/10
    then some (mkPeriod times threshold cols i) else none)

/-- Lines 274-287: the success dict of `calculate_model_agreement`: aggregates
over the full rounded-score sequence, full bucket counts, buckets truncated to
their first five entries. -/
def mkAgreementResult (varName field : String) (models : List String) (threshold : ℚ)
    (times : List String) (cols : List (List ℚ)) (n : ℕ) : AgreementResult :=
  { varName := varName, field := field, num_models := models.length, models := models,
    threshold := threshold,
    mean_agreement := round3 (pyMean (agreementScores threshold cols n)),
    min_agreement := round3 (listMin (agreementScores threshold cols n)),
    max_agreement := round3 (listMax (agreementScores threshold cols n)),
    high_agreement_count := (highPeriodsAll times threshold cols n).length,
    low_agreement_count := (lowPeriodsAll times threshold cols n).length,
    high_agreement_periods := (highPeriodsAll times threshold cols n).take 5,
    low_agreement_periods := (lowPeriodsAll times threshold cols n).take 5 }

/-- Lines 210-235: the valid models paired with their stored value under the
per-model resolved field (shape and field name re-derived per model). -/
def agreementValidModels (fd : ForecastData) (varName : String) (useMax : Bool) :
    List (String × PyVal) :=
  (validModelsOf fd).filterMap (fun p =>
    (lookupD p.2 (resolveFieldName (_is_daily_data p.2) varName useMax)).map
      (fun v => (p.1, v)))

/-- Line 276: `field_name if "field_name" in locals() else variable` — the
resolved field of the last valid model, else the raw variable name. -/
def agreementFieldName (fd : ForecastData) (varName : String) (useMax : Bool) : String :=
  match (validModelsOf fd).getLast? with
  | some p => resolveFieldName (_is_daily_data p.2) varName useMax
  | none => varName

/-- Line 241: the representative time axis of `calculate_model_agreement`,
from the first valid model whether or not it carries the field. -/
def agreementTimes (fd : ForecastData) : List String :=
  match validModelsOf fd with
  | [] => []
  | fm :: _ => pyGetTimes fm.2

/-- Lines 184-287: `calculate_model_agreement(forecast_data, variable,
threshold, use_max)`. The loop body indexes every model's series at each
`i < len(first series)` without a length check (`IndexError`), divides by
`threshold * 2` (`ZeroDivisionError`), and `statistics.mean([])` raises when
there are no timesteps. -/
def calculate_model_agreement (fd : ForecastData) (varName : String) (threshold : ℚ)
    (useMax : Bool) : PyResult AgreementResult :=
  match agreementValidModels fd varName useMax with
  | v0 :: v1 :: vrest =>
    if pyValLen v0.2 = 0 then .exn (.statisticsError "mean requires at least one data point")
    else if (v0 :: v1 :: vrest).any (fun p => pyValLen p.2 == 0) then .exn .indexError
    else
      match allNums (v0 :: v1 :: vrest) with
      | none => .exn .typeError
      | some cols =>
        if threshold = 0 then .exn .zeroDivisionError
        else if cols.any (fun c => decide (c.length < pyValLen v0.2)) then .exn .indexError
        else
          .ok (mkAgreementResult varName (agreementFieldName fd varName useMax)
            ((v0 :: v1 :: vrest).map Prod.fst) threshold (agreementTimes fd) cols
            (pyValLen v0.2))
  | _ => .errorDict "Need at least 2 models to calculate agreement"

/-- One temperature block of the daily range payload (lines 167-178). -/
structure TierRangeStats where
  ensemble_mean : List ℚ
  spread : List ℚ
  ensemble_std : List ℚ
  times : List String
deriving DecidableEq

/-- Success payload of `calculate_daily_temperature_range_statistics`
(lines 166-181). -/
structure TempRangeStats where
  temperature_max : TierRangeStats
  temperature_min : TierRangeStats
  models : List String
  num_models : ℕ
deriving DecidableEq

/-- Lines 149-181: `calculate_daily_temperature_range_statistics`: two
`calculate_ensemble_statistics` calls (use_max true/false); any `error` dict
collapses to one opaque error message; exceptions propagate. -/
def calculate_daily_temperature_range_statistics (fd : ForecastData) :
    PyResult TempRangeStats :=
  match calculate_ensemble_statistics fd "temperature" true with
  | .exn e => .exn e
  | rmax =>
    match calculate_ensemble_statistics fd "temperature" false with
    | .exn e => .exn e
    | rmin =>
      match rmax, rmin with
      | .ok smax, .ok smin =>
        .ok { temperature_max := ⟨smax.ensemble_mean, smax.spread, smax.ensemble_std, smax.times⟩,
              temperature_min := ⟨smin.ensemble_mean, smin.spread, smin.ensemble_std, smin.times⟩,
              models := smax.models, num_models := smax.num_models }
      | _, _ => .errorDict "Could not calculate temperature range statistics"

/-- One entry of the `variables` map of the uncertainty summary
(lines 333-338). -/
structure VarSummary where
  average_spread : ℚ
  max_spread : ℚ
  average_std_dev : ℚ
  uncertainty_level : String
deriving DecidableEq

/-- Success payload of `summarize_forecast_uncertainty` (line 309);
`variablesMap` models the `variables` key (`variables` is reserved in Lean). -/
structure UncertaintySummary where
  num_models : ℕ
  models : List String
  variablesMap : List (String × VarSummary)
deriving DecidableEq

/-- The qualitative tier of lines 331/346/361/414: `low` below the first
threshold, `moderate` below the second, else `high`, on the raw (unrounded)
average spread. -/
def uncertaintyLevel (lowT modT avg : ℚ) : String :=
  if avg < lowT then "low" else if avg < modT then "moderate" else "high"

/-- Python dict insertion `d[k] = v`: overwrite in place when the key exists,
else append. -/
def dictInsert {α : Type} (d : List (String × α)) (k : String) (v : α) :
    List (String × α) :=
  if (lookupD d k).isSome then d.map (fun p => if p.1 = k then (k, v) else p)
  else d ++ [(k, v)]

/-- Lines 328-338 (and analogues): reduce one statistics payload to a summary
entry; `statistics.mean` of an empty spread list raises. -/
def tierSummary (st : EnsembleStats) (lowT modT : ℚ) : PyResult VarSummary :=
  match st.spread with
  | [] => .exn (.statisticsError "mean requires at least one data point")
  | _ :: _ =>
    .ok { average_spread := round2 (pyMean st.spread),
          max_spread := round2 (listMax st.spread),
          average_std_dev := round2 (pyMean st.ensemble_std),
          uncertainty_level := uncertaintyLevel lowT modT (pyMean st.spread) }

/-- One `if "error" not in stats:` block of `summarize_forecast_uncertainty`:
skip the tier on an error dict, fill `summary["variables"][key]` on success,
propagate exceptions. -/
def addTier (acc : PyResult (List (String × VarSummary))) (key : String)
    (call : PyResult EnsembleStats) (lowT modT : ℚ) :
    PyResult (List (String × VarSummary)) :=
  match acc with
  | .ok vars =>
    match call with
    | .exn e => .exn e
    | .errorDict _ => .ok vars
    | .ok st =>
      match tierSummary st lowT modT with
      | .ok v => .ok (dictInsert vars key v)
      | .errorDict m => .errorDict m
      | .exn e => .exn e
  | other => other

/-- Lines 290-423: `summarize_forecast_uncertainty(forecast_data)`: daily
shape summarises `temperature_max`, `temperature_min`, `wind_speed_max`;
hourly shape summarises `temperature`, `precipitation`, `wind_speed`; both
end with the shared `precipitation` block (lines 409-421). -/
def summarize_forecast_uncertainty (fd : ForecastData) : PyResult UncertaintySummary :=
  match validModelsOf fd with
  | [] => .errorDict "No valid model data"
  | fm :: rest =>
    match
      addTier
        (if _is_daily_data fm.2 then
          addTier (addTier (addTier (.ok [])
            "temperature_max" (calculate_ensemble_statistics fd "temperature" true) 3 7)
            "temperature_min" (calculate_ensemble_statistics fd "temperature" false) 3 7)
            "wind_speed_max" (calculate_ensemble_statistics fd "wind_speed" true) 3 8
        else
          addTier (addTier (addTier (.ok [])
            "temperature" (calculate_ensemble_statistics fd "temperature" true) 3 7)
            "precipitation" (calculate_ensemble_statistics fd "precipitation" true) (1/20) (1/5))
            "wind_speed" (calculate_ensemble_statistics fd "wind_speed" true) 3 8)
        "precipitation" (calculate_ensemble_statistics fd "precipitation" true) (1/20) (1/5)
    with
    | .ok vars =>
      .ok { num_models := ((fm :: rest).map Prod.fst).length,
            models := (fm :: rest).map Prod.fst, variablesMap := vars }
    | .errorDict m => .errorDict m
    | .exn e => .exn e

/-! Helper lemmas about the numeric primitives. -/

theorem rangeMap_getD {n i : ℕ} (f : ℕ → ℚ) (h : i < n) :
    ((List.range n).map f).getD i 0 = f i := by
  rw [List.getD_eq_getElem?_getD]
  simp [List.getElem?_map, List.getElem?_range, h]

theorem getD_mem : ∀ (l : List ℚ) (i : ℕ), i < l.length → l.getD i 0 ∈ l
  | a :: _, 0, _ => List.mem_cons_self a _
  | _ :: t, i + 1, h =>
    List.mem_cons_of_mem _ (getD_mem t i (by simpa using Nat.lt_of_succ_lt_succ h))

theorem sorted_getD_le : ∀ (l : List ℚ), List.Sorted (· ≤ ·) l →
    ∀ i j : ℕ, i ≤ j → j < l.length → l.getD i 0 ≤ l.getD j 0 := by
  intro l hl
  induction l with
  | nil => intro i j _ hj; simp at hj
  | cons a t ih =>
    intro i j hij hj
    rcases List.sorted_cons.mp hl with ⟨ha, ht⟩
    match i, j with
    | 0, 0 => exact le_refl _
    | 0, j + 1 =>
      exact ha _ (getD_mem t j (by simpa using Nat.lt_of_succ_lt_succ hj))
    | i + 1, j + 1 =>
      exact ih ht i j (Nat.le_of_succ_le_succ hij) (by simpa using Nat.lt_of_succ_lt_succ hj)

theorem foldl_min_le (l : List ℚ) : ∀ a : ℚ, l.foldl min a ≤ a ∧ ∀ x ∈ l, l.foldl min a ≤ x := by
  induction l with
  | nil => intro a; exact ⟨le_refl a, by simp⟩
  | cons b t ih =>
    intro a
    refine ⟨le_trans (ih (min a b)).1 (min_le_left a b), ?_⟩
    intro x hx
    rcases List.mem_cons.mp hx with rfl | hx
    · exact le_trans (ih (min a x)).1 (min_le_right a x)
    · exact (ih (min a b)).2 x hx

theorem listMin_le_of_mem {l : List ℚ} {x : ℚ} (hx : x ∈ l) : listMin l ≤ x := by
  match l, hx with
  | a :: t, hx =>
    rcases List.mem_cons.mp hx with rfl | hx
    · exact (foldl_min_le t x).1
    · exact (foldl_min_le t a).2 x hx

theorem le_foldl_max (l : List ℚ) : ∀ a : ℚ, a ≤ l.foldl max a ∧ ∀ x ∈ l, x ≤ l.foldl max a := by
  induction l with
  | nil => intro a; exact ⟨le_refl a, by simp⟩
  | cons b t ih =>
    intro a
    refine ⟨le_trans (le_max_left a b) (ih (max a b)).1, ?_⟩
    intro x hx
    rcases List.mem_cons.mp hx with rfl | hx
    · exact le_trans (le_max_right a x) (ih (max a x)).1
    · exact (ih (max a b)).2 x hx

theorem le_listMax_of_mem {l : List ℚ} {x : ℚ} (hx : x ∈ l) : x ≤ listMax l := by
  match l, hx with
  | a :: t, hx =>
    rcases List.mem_cons.mp hx with rfl | hx
    · exact (le_foldl_max t x).1
    · exact (le_foldl_max t a).2 x hx

theorem roundHalfEven_bounds (q : ℚ) : ⌊q⌋ ≤ roundHalfEven q ∧ roundHalfEven q ≤ ⌊q⌋ + 1 := by
  unfold roundHalfEven
  split
  · exact ⟨le_refl _, by omega⟩
  · split
    · exact ⟨by omega, le_refl _⟩
    · split
      · exact ⟨le_refl _, by omega⟩
      · exact ⟨by omega, le_refl _⟩

theorem rhe_lo {q : ℚ} (h : q - ⌊q⌋ < 1/2) : roundHalfEven q = ⌊q⌋ := by
  unfold roundHalfEven
  rw [if_pos h]

theorem rhe_hi {q : ℚ} (h : 1/2 < q - ⌊q⌋) : roundHalfEven q = ⌊q⌋ + 1 := by
  unfold roundHalfEven
  rw [if_neg (by linarith), if_pos h]

theorem roundHalfEven_mono {p q : ℚ} (h : p ≤ q) : roundHalfEven p ≤ roundHalfEven q := by
  have hf : ⌊p⌋ ≤ ⌊q⌋ := Int.floor_mono h
  rcases eq_or_lt_of_le hf with heq | hlt
  · have heqq : ((⌊p⌋ : ℤ) : ℚ) = ((⌊q⌋ : ℤ) : ℚ) := by rw [heq]
    rcases lt_trichotomy (q - ⌊q⌋) (1/2) with h1 | h1 | h1
    · have hp1 : p - ⌊p⌋ < 1/2 := by rw [heqq]; linarith
      rw [rhe_lo hp1, rhe_lo h1, heq]
    · have hple : p - (⌊p⌋ : ℚ) ≤ 1/2 := by rw [heqq]; linarith
      rcases lt_or_eq_of_le hple with h2 | h2
      · rw [rhe_lo h2, heq]
        exact (roundHalfEven_bounds q).1
      · have hpq : p = q := by rw [heqq] at h2; linarith
        rw [hpq]
    · rw [rhe_hi h1]
      calc roundHalfEven p ≤ ⌊p⌋ + 1 := (roundHalfEven_bounds p).2
        _ ≤ ⌊q⌋ + 1 := by omega
  · calc roundHalfEven p ≤ ⌊p⌋ + 1 := (roundHalfEven_bounds p).2
      _ ≤ ⌊q⌋ := by omega
      _ ≤ roundHalfEven q := (roundHalfEven_bounds q).1

theorem round2_mono {p q : ℚ} (h : p ≤ q) : round2 p ≤ round2 q := by
  unfold round2
  have h1 : p * 100 ≤ q * 100 := by linarith
  have h2 : roundHalfEven (p * 100) ≤ roundHalfEven (q * 100) := roundHalfEven_mono h1
  have h3 : ((roundHalfEven (p * 100) : ℚ)) ≤ ((roundHalfEven (q * 100) : ℚ)) := by
    exact_mod_cast h2
  linarith

theorem interpAt_bounds {s : List ℚ} {j : ℕ} {δ : ℤ} (hs : List.Sorted (· ≤ ·) s)
    (hj1 : 1 ≤ j) (hjl : j < s.length) (h0 : 0 ≤ δ) (h4 : δ ≤ 4) :
    s.getD (j - 1) 0 ≤ interpAt s j δ ∧ interpAt s j δ ≤ s.getD j 0 := by
  have hab : s.getD (j - 1) 0 ≤ s.getD j 0 :=
    sorted_getD_le s hs (j - 1) j (by omega) hjl
  have hd0 : (0 : ℚ) ≤ (δ : ℚ) := by exact_mod_cast h0
  have hd4 : ((δ : ℚ)) ≤ 4 := by exact_mod_cast h4
  unfold interpAt
  constructor
  · rw [le_div_iff₀ (by norm_num : (0 : ℚ) < 4)]
    nlinarith [mul_nonneg hd0 (sub_nonneg.mpr hab)]
  · rw [div_le_iff₀ (by norm_num : (0 : ℚ) < 4)]
    nlinarith [mul_nonneg (by linarith : (0 : ℚ) ≤ 4 - (δ : ℚ)) (sub_nonneg.mpr hab)]

theorem exc1_facts {ld : ℕ} (h3 : 3 ≤ ld) :
    1 ≤ excJ ld 1 ∧ excJ ld 1 < ld ∧ 0 ≤ excDelta ld 1 ∧ excDelta ld 1 ≤ 4 ∧
    (ld % 2 = 1 → excJ ld 1 ≤ ld / 2) ∧ (ld % 2 = 0 → excJ ld 1 ≤ ld / 2 - 1) := by
  unfold excDelta excJ
  split_ifs with h1 h2 <;> omega

theorem exc3_facts {ld : ℕ} (h3 : 3 ≤ ld) :
    1 ≤ excJ ld 3 ∧ excJ ld 3 < ld ∧ 0 ≤ excDelta ld 3 ∧ excDelta ld 3 ≤ 4 ∧
    ld / 2 ≤ excJ ld 3 - 1 := by
  unfold excDelta excJ
  split_ifs with h1 h2 <;> omega

theorem quartile_chain (xs : List ℚ) (h3 : 3 ≤ xs.length) :
    listMin xs ≤ (pyQuantiles4 xs).getD 0 0 ∧
    (pyQuantiles4 xs).getD 0 0 ≤ pyMedian xs ∧
    pyMedian xs ≤ (pyQuantiles4 xs).getD 2 0 ∧
    (pyQuantiles4 xs).getD 2 0 ≤ listMax xs := by
  have hlen : (pySorted xs).length = xs.length := List.length_insertionSort _ _
  have hsort : List.Sorted (· ≤ ·) (pySorted xs) := List.sorted_insertionSort _ _
  have hperm : List.Perm (pySorted xs) xs := List.perm_insertionSort _ _
  have hq0 : (pyQuantiles4 xs).getD 0 0 = excQuantile (pySorted xs) 1 := rfl
  have hq2 : (pyQuantiles4 xs).getD 2 0 = excQuantile (pySorted xs) 3 := rfl
  have h3s : 3 ≤ (pySorted xs).length := by omega
  obtain ⟨hj1a, hj1b, hd1a, hd1b, hodd1, heven1⟩ := exc1_facts h3s
  obtain ⟨hj3a, hj3b, hd3a, hd3b, hmed3⟩ := exc3_facts h3s
  have hb1 := interpAt_bounds hsort hj1a hj1b hd1a hd1b
  have hb3 := interpAt_bounds hsort hj3a hj3b hd3a hd3b
  have hmem1 : (pySorted xs).getD (excJ (pySorted xs).length 1 - 1) 0 ∈ xs :=
    hperm.mem_iff.mp (getD_mem _ _ (by omega))
  have hmem3 : (pySorted xs).getD (excJ (pySorted xs).length 3) 0 ∈ xs :=
    hperm.mem_iff.mp (getD_mem _ _ (by omega))
  refine ⟨?_, ?_, ?_, ?_⟩
  · rw [hq0]
    exact le_trans (listMin_le_of_mem hmem1) hb1.1
  · rw [hq0]
    unfold pyMedian
    split_ifs with hpar
    · refine le_trans hb1.2 (sorted_getD_le _ hsort _ _ ?_ (by omega))
      have := hodd1 (by omega)
      omega
    · have hlow : (pySorted xs).getD (excJ (pySorted xs).length 1) 0 ≤
          (pySorted xs).getD (xs.length / 2 - 1) 0 := by
        refine sorted_getD_le _ hsort _ _ ?_ (by omega)
        have := heven1 (by omega)
        omega
      have hmidle : (pySorted xs).getD (xs.length / 2 - 1) 0 ≤
          (pySorted xs).getD (xs.length / 2) 0 :=
        sorted_getD_le _ hsort _ _ (by omega) (by omega)
      have hQ1 : excQuantile (pySorted xs) 1 =
          interpAt (pySorted xs) (excJ (pySorted xs).length 1)
            (excDelta (pySorted xs).length 1) := rfl
      have := hb1.2
      rw [hQ1]
      linarith
  · rw [hq2]
    unfold pyMedian
    split_ifs with hpar
    · refine le_trans (sorted_getD_le _ hsort _ _ ?_ (by omega)) hb3.1
      omega
    · have hup : (pySorted xs).getD (xs.length / 2) 0 ≤
          (pySorted xs).getD (excJ (pySorted xs).length 3 - 1) 0 := by
        refine sorted_getD_le _ hsort _ _ ?_ (by omega)
        omega
      have hmidle : (pySorted xs).getD (xs.length / 2 - 1) 0 ≤
          (pySorted xs).getD (xs.length / 2) 0 :=
        sorted_getD_le _ hsort _ _ (by omega) (by omega)
      have hQ3 : excQuantile (pySorted xs) 3 =
          interpAt (pySorted xs) (excJ (pySorted xs).length 3)
            (excDelta (pySorted xs).length 3) := rfl
      have := hb3.1
      rw [hQ3]
      linarith
  · rw [hq2]
    exact le_trans hb3.2 (le_listMax_of_mem hmem3)

theorem allNums_length : ∀ (l : List (String × PyVal)) (cols : List (List ℚ)),
    allNums l = some cols → cols.length = l.length := by
  intro l
  induction l with
  | nil =>
    intro cols h
    simp [allNums] at h
    simp [← h]
  | cons p t ih =>
    intro cols h
    unfold allNums at h
    rcases hv : asNums p.2 with _ | c <;> rw [hv] at h
    · simp at h
    · rcases ht : allNums t with _ | cs <;> rw [ht] at h
      · simp at h
      · simp at h
        rw [← h]
        simp [ih cs ht]

theorem stats_ok_master {fd : ForecastData} {vn : String} {um : Bool} {st : EnsembleStats}
    (h : calculate_ensemble_statistics fd vn um = .ok st) :
    ∃ fm rest m0 mrest cols,
      validModelsOf fd = fm :: rest ∧
      fieldModelValues (fm :: rest) (resolveFieldName (_is_daily_data fm.2) vn um) =
        m0 :: mrest ∧
      (∀ p ∈ (m0 :: mrest : List (String × PyVal)), pyValLen p.2 = pyValLen m0.2) ∧
      (pyValLen m0.2 = 0 ∧ cols = ([] : List (List ℚ)) ∨
        0 < pyValLen m0.2 ∧ allNums (m0 :: mrest) = some cols ∧ 2 ≤ cols.length) ∧
      st = mkEnsembleStats vn (resolveFieldName (_is_daily_data fm.2) vn um)
        (_is_daily_data fm.2) ((m0 :: mrest).map Prod.fst)
        (statsTimes (fm :: rest) (resolveFieldName (_is_daily_data fm.2) vn um))
        cols (pyValLen m0.2) := by
  unfold calculate_ensemble_statistics at h
  split at h
  next => exact PyResult.noConfusion h
  next fm rest heq1 =>
    split at h
    next => exact PyResult.noConfusion h
    next m0 mrest heq2 =>
      split at h
      next => exact PyResult.noConfusion h
      next heq3 =>
        have hlens : ∀ p ∈ (m0 :: mrest : List (String × PyVal)),
            pyValLen p.2 = pyValLen m0.2 := by
          intro p hp
          have := List.find?_eq_none.mp heq3 p hp
          simpa using this
        split at h
        next hzero =>
          injection h with h
          exact ⟨fm, rest, m0, mrest, [], heq1, heq2, hlens, Or.inl ⟨hzero, rfl⟩, h.symm⟩
        next hzero =>
          split at h
          next => exact PyResult.noConfusion h
          next cols heq4 =>
            split at h
            next => exact PyResult.noConfusion h
            next hlen2 =>
              injection h with h
              exact ⟨fm, rest, m0, mrest, cols, heq1, heq2, hlens,
                Or.inr ⟨by omega, heq4, by omega⟩, h.symm⟩

/-- C1 (amended): for every dataset accepted by `calculate_ensemble_statistics`
whose result covers at least three models, the order-statistic chain
`ensemble_min[i] <= percentile_25[i] <= ensemble_median[i] <= percentile_75[i]
<= ensemble_max[i]` holds at every timestep `i`. (With exactly two models the
exclusive quartile method extrapolates beyond the observed extremes, see the
counterexample.) -/
theorem C1_theorem {fd : ForecastData} {vn : String} {um : Bool} {st : EnsembleStats}
    (h : calculate_ensemble_statistics fd vn um = .ok st) (h3 : 3 ≤ st.num_models) :
    ∀ i, i < st.percentile_25.length →
      st.ensemble_min.getD i 0 ≤ st.percentile_25.getD i 0 ∧
      st.percentile_25.getD i 0 ≤ st.ensemble_median.getD i 0 ∧
      st.ensemble_median.getD i 0 ≤ st.percentile_75.getD i 0 ∧
      st.percentile_75.getD i 0 ≤ st.ensemble_max.getD i 0 := by
  obtain ⟨fm, rest, m0, mrest, cols, heq1, heq2, hlens, hbranch, hst⟩ := stats_ok_master h
  intro i hi
  subst hst
  rcases hbranch with ⟨hz, rfl⟩ | ⟨hpos, hall, h2⟩
  · simp [mkEnsembleStats, hz] at hi
  · have hcols : cols.length = (m0 :: mrest).length := allNums_length _ _ hall
    simp only [mkEnsembleStats] at h3 hi ⊢
    rw [List.length_map, List.length_range] at hi
    rw [List.length_map] at h3
    have hxs : 3 ≤ (valuesAtTime cols i).length := by
      simp only [valuesAtTime, List.length_map]
      omega
    rw [rangeMap_getD _ hi, rangeMap_getD _ hi, rangeMap_getD _ hi, rangeMap_getD _ hi,
      rangeMap_getD _ hi]
    obtain ⟨g1, g2, g3, g4⟩ := quartile_chain (valuesAtTime cols i) hxs
    exact ⟨round2_mono g1, round2_mono g2, round2_mono g3, round2_mono g4⟩

/-- Two hourly models disagreeing at the single timestep: the smallest dataset
on which the exclusive quartile method extrapolates. -/
def fdC1x : ForecastData :=
  [("gfs", [("times", .strs ["t0"]), ("temperature", .nums [50])]),
   ("ecmwf", [("times", .strs ["t0"]), ("temperature", .nums [54])])]

/-- The statistics payload the code computes on `fdC1x`. -/
def stC1x : EnsembleStats :=
  mkEnsembleStats "temperature" "temperature" false ["gfs", "ecmwf"] ["t0"] [[50], [54]] 1

/-- C1 (counterexample): on the accepted two-model dataset `fdC1x` the claimed
chain fails at timestep 0: `percentile_25 = 49 < 50 = ensemble_min` (and
`percentile_75 = 55 > 54 = ensemble_max`). -/
theorem C1_counterexample :
    calculate_ensemble_statistics fdC1x "temperature" true = .ok stC1x ∧
    ¬ (stC1x.ensemble_min.getD 0 0 ≤ stC1x.percentile_25.getD 0 0) ∧
    ¬ (stC1x.percentile_75.getD 0 0 ≤ stC1x.ensemble_max.getD 0 0) := by
  have hv : valuesAtTime [[(50 : ℚ)], [54]] 0 = [50, 54] := by norm_num [valuesAtTime]
  have hmin : stC1x.ensemble_min.getD 0 0 = 50 := by
    have e : stC1x.ensemble_min.getD 0 0 =
        round2 (listMin (valuesAtTime [[50], [54]] 0)) := rfl
    rw [e, hv]
    norm_num [listMin, round2, roundHalfEven]
  have hmax : stC1x.ensemble_max.getD 0 0 = 54 := by
    have e : stC1x.ensemble_max.getD 0 0 =
        round2 (listMax (valuesAtTime [[50], [54]] 0)) := rfl
    rw [e, hv]
    norm_num [listMax, round2, roundHalfEven]
  have hp25 : stC1x.percentile_25.getD 0 0 = 49 := by
    have e : stC1x.percentile_25.getD 0 0 =
        round2 ((pyQuantiles4 (valuesAtTime [[50], [54]] 0)).getD 0 0) := rfl
    rw [e, hv]
    norm_num [pyQuantiles4, pySorted, excQuantile, excJ, excDelta, interpAt,
      List.insertionSort, List.orderedInsert, List.range_succ, round2, roundHalfEven]
  have hp75 : stC1x.percentile_75.getD 0 0 = 55 := by
    have e : stC1x.percentile_75.getD 0 0 =
        round2 ((pyQuantiles4 (valuesAtTime [[50], [54]] 0)).getD 2 0) := rfl
    rw [e, hv]
    norm_num [pyQuantiles4, pySorted, excQuantile, excJ, excDelta, interpAt,
      List.insertionSort, List.orderedInsert, List.range_succ, round2, roundHalfEven]
  refine ⟨rfl, ?_, ?_⟩
  · rw [hmin, hp25]
    norm_num
  · rw [hmax, hp75]
    norm_num

/-- Three hourly models at one timestep, for the C1 witness. -/
def fdC1w : ForecastData :=
  [("gfs", [("times", .strs ["t0"]), ("temperature", .nums [50])]),
   ("ecmwf", [("times", .strs ["t0"]), ("temperature", .nums [54])]),
   ("icon", [("times", .strs ["t0"]), ("temperature", .nums [52])])]

/-- The statistics payload the code computes on `fdC1w`. -/
def stC1w : EnsembleStats :=
  mkEnsembleStats "temperature" "temperature" false ["gfs", "ecmwf", "icon"] ["t0"]
    [[50], [54], [52]] 1

/-- C1 (witness): the amended chain theorem applied to a concrete accepted
three-model dataset. -/
theorem C1_witness :
    calculate_ensemble_statistics fdC1w "temperature" true = .ok stC1w ∧
    3 ≤ stC1w.num_models ∧
    (stC1w.ensemble_min.getD 0 0 ≤ stC1w.percentile_25.getD 0 0 ∧
     stC1w.percentile_25.getD 0 0 ≤ stC1w.ensemble_median.getD 0 0 ∧
     stC1w.ensemble_median.getD 0 0 ≤ stC1w.percentile_75.getD 0 0 ∧
     stC1w.percentile_75.getD 0 0 ≤ stC1w.ensemble_max.getD 0 0) := by
  have h : calculate_ensemble_statistics fdC1w "temperature" true = .ok stC1w := rfl
  exact ⟨h, by decide, C1_theorem h (by decide) 0 (by decide)⟩

/-- A dataset with exactly one valid model and one timestep. -/
def fdC2single : ForecastData :=
  [("gfs", [("times", .strs ["t0", "t1"]), ("temperature", .nums [50, 52])])]

/-- Two models whose temperature arrays differ in length. -/
def fdC2mismatch : ForecastData :=
  [("gfs", [("times", .strs ["t0", "t1"]), ("temperature", .nums [50, 52])]),
   ("ecmwf", [("times", .strs ["t0", "t1"]), ("temperature", .nums [54])])]

/-- C2 (code bug): the flat error contract is violated. With exactly one valid
model, `calculate_ensemble_statistics` raises `StatisticsError` out of
`statistics.quantiles` instead of returning an error payload; with field
arrays of different lengths, `calculate_model_agreement` raises `IndexError`
instead of returning an error payload. -/
theorem C2_theorem :
    calculate_ensemble_statistics fdC2single "temperature" true =
      .exn (.statisticsError "must have at least two data points") ∧
    calculate_model_agreement fdC2mismatch "temperature" 5 true = .exn .indexError :=
  ⟨rfl, rfl⟩

/-- A dataset with exactly one valid model carrying `temperature`. -/
def fdC3 : ForecastData :=
  [("icon", [("times", .strs ["t0"]), ("temperature", .nums [50])])]

/-- C3 (code bug): a single-model dataset with at least one timestep does not
produce a success payload with `ensemble_std = 0`; the call raises
`StatisticsError` inside `statistics.quantiles` (the `len > 1` stdev guard
never gets to matter). -/
theorem C3_theorem :
    calculate_ensemble_statistics fdC3 "temperature" true =
      .exn (.statisticsError "must have at least two data points") := rfl

/-- C4: the per-timestep agreement score of `calculate_model_agreement` equals
`max(0, 1 - spread/(2*threshold))`: it is 1 exactly on zero spread, clamps to
0 from spread `2*threshold` on, never goes negative, and is monotonically
non-increasing in the spread for a fixed positive threshold. -/
theorem C4_theorem (t spread spread2 : ℚ) (ht : 0 < t) (hs : 0 ≤ spread) :
    agreementScore t spread = max 0 (1 - spread / (2 * t)) ∧
    (agreementScore t spread = 1 ↔ spread = 0) ∧
    0 ≤ agreementScore t spread ∧
    (2 * t ≤ spread → agreementScore t spread = 0) ∧
    (spread ≤ spread2 → agreementScore t spread2 ≤ agreementScore t spread) := by
  have ht2 : 0 < t * 2 := by linarith
  refine ⟨by rw [agreementScore, mul_comm t 2], ?_, le_max_left _ _, ?_, ?_⟩
  · constructor
    · intro h1
      by_contra hne
      have hpos : 0 < spread := lt_of_le_of_ne hs (Ne.symm hne)
      have hlt : 1 - spread / (t * 2) < 1 := by
        have : 0 < spread / (t * 2) := div_pos hpos ht2
        linarith
      have : agreementScore t spread < 1 := by
        unfold agreementScore
        exact max_lt (by norm_num) hlt
      exact absurd h1 (ne_of_lt this)
    · intro h0
      unfold agreementScore
      rw [h0]
      simp
  · intro hge
    unfold agreementScore
    have : 1 ≤ spread / (t * 2) := by
      rw [le_div_iff₀ ht2]
      linarith
    exact max_eq_left (by linarith)
  · intro hmono
    unfold agreementScore
    have : spread / (t * 2) ≤ spread2 / (t * 2) := by gcongr
    exact max_le_max (le_refl 0) (by linarith)

/-- C4 (witness): the score properties instantiated at threshold 5 with
spreads 4 and 6 (the repository default threshold). -/
theorem C4_witness :
    agreementScore 5 4 = max 0 (1 - 4 / (2 * 5)) ∧
    (agreementScore 5 4 = 1 ↔ (4 : ℚ) = 0) ∧
    0 ≤ agreementScore 5 4 ∧
    ((2 : ℚ) * 5 ≤ 4 → agreementScore 5 4 = 0) ∧
    ((4 : ℚ) ≤ 6 → agreementScore 5 6 ≤ agreementScore 5 4) :=
  C4_theorem 5 4 6 (by norm_num) (by norm_num)

/-- The two-model example dataset of the specification. -/
def exampleFd : ForecastData :=
  [("gfs", [("times", .strs ["t0", "t1"]), ("temperature", .nums [50, 52])]),
   ("ecmwf", [("times", .strs ["t0", "t1"]), ("temperature", .nums [54, 50])])]

/-- The statistics payload the code computes on `exampleFd`. -/
def stC5 : EnsembleStats :=
  mkEnsembleStats "temperature" "temperature" false ["gfs", "ecmwf"] ["t0", "t1"]
    [[50, 52], [54, 50]] 2

/-- The agreement payload the code computes on `exampleFd` at threshold 5. -/
def arC5 : AgreementResult :=
  mkAgreementResult "temperature" "temperature" ["gfs", "ecmwf"] 5 ["t0", "t1"]
    [[50, 52], [54, 50]] 2

/-- C5: on the specification example, `calculate_ensemble_statistics` returns
mean `[52, 51]`, spread `[4, 2]`, min `[50, 50]`, max `[54, 52]`, and
`calculate_model_agreement` at threshold 5 yields scores ranging 0.6 to 0.8
with mean 0.7, placing exactly timestep 1 (time `t1`, score 0.8) in
`high_agreement_periods` and no timestep in `low_agreement_periods`. -/
theorem C5_theorem :
    calculate_ensemble_statistics exampleFd "temperature" true = .ok stC5 ∧
    stC5.ensemble_mean = [52, 51] ∧ stC5.spread = [4, 2] ∧
    stC5.ensemble_min = [50, 50] ∧ stC5.ensemble_max = [54, 52] ∧
    calculate_model_agreement exampleFd "temperature" 5 true = .ok arC5 ∧
    arC5.min_agreement = 3/5 ∧ arC5.max_agreement = 4/5 ∧ arC5.mean_agreement = 7/10 ∧
    arC5.high_agreement_periods = [⟨"t1", 2, 4/5⟩] ∧
    arC5.low_agreement_periods = [] := by
  have hv0 : valuesAtTime [[(50 : ℚ), 52], [54, 50]] 0 = [50, 54] := by
    norm_num [valuesAtTime]
  have hv1 : valuesAtTime [[(50 : ℚ), 52], [54, 50]] 1 = [52, 50] := by
    norm_num [valuesAtTime]
  have hmean : stC5.ensemble_mean = [52, 51] := by
    have e : stC5.ensemble_mean =
        [round2 (pyMean (valuesAtTime [[50, 52], [54, 50]] 0)),
         round2 (pyMean (valuesAtTime [[50, 52], [54, 50]] 1))] := rfl
    rw [e, hv0, hv1]
    norm_num [pyMean, round2, roundHalfEven]
  have hspread : stC5.spread = [4, 2] := by
    have e : stC5.spread =
        [round2 (listMax (valuesAtTime [[50, 52], [54, 50]] 0) -
          listMin (valuesAtTime [[50, 52], [54, 50]] 0)),
         round2 (listMax (valuesAtTime [[50, 52], [54, 50]] 1) -
          listMin (valuesAtTime [[50, 52], [54, 50]] 1))] := rfl
    rw [e, hv0, hv1]
    norm_num [listMin, listMax, round2, roundHalfEven]
  have hmin : stC5.ensemble_min = [50, 50] := by
    have e : stC5.ensemble_min =
        [round2 (listMin (valuesAtTime [[50, 52], [54, 50]] 0)),
         round2 (listMin (valuesAtTime [[50, 52], [54, 50]] 1))] := rfl
    rw [e, hv0, hv1]
    norm_num [listMin, round2, roundHalfEven]
  have hmax : stC5.ensemble_max = [54, 52] := by
    have e : stC5.ensemble_max =
        [round2 (listMax (valuesAtTime [[50, 52], [54, 50]] 0)),
         round2 (listMax (valuesAtTime [[50, 52], [54, 50]] 1))] := rfl
    rw [e, hv0, hv1]
    norm_num [listMax, round2, roundHalfEven]
  have hsp0 : spreadAt [[(50 : ℚ), 52], [54, 50]] 0 = 4 := by
    unfold spreadAt
    rw [hv0]
    norm_num [listMin, listMax]
  have hsp1 : spreadAt [[(50 : ℚ), 52], [54, 50]] 1 = 2 := by
    unfold spreadAt
    rw [hv1]
    norm_num [listMin, listMax]
  have hsc0 : agreementScore 5 (spreadAt [[(50 : ℚ), 52], [54, 50]] 0) = 3/5 := by
    rw [hsp0]
    norm_num [agreementScore]
  have hsc1 : agreementScore 5 (spreadAt [[(50 : ℚ), 52], [54, 50]] 1) = 4/5 := by
    rw [hsp1]
    norm_num [agreementScore]
  have hscores : agreementScores 5 [[(50 : ℚ), 52], [54, 50]] 2 = [3/5, 4/5] := by
    have e : agreementScores 5 [[(50 : ℚ), 52], [54, 50]] 2 =
        [round3 (agreementScore 5 (spreadAt [[50, 52], [54, 50]] 0)),
         round3 (agreementScore 5 (spreadAt [[50, 52], [54, 50]] 1))] := rfl
    rw [e, hsc0, hsc1]
    norm_num [round3, roundHalfEven]
  have hP1 : mkPeriod ["t0", "t1"] 5 [[(50 : ℚ), 52], [54, 50]] 1 = ⟨"t1", 2, 4/5⟩ := by
    unfold mkPeriod
    rw [hsc1, hsp1]
    norm_num [timeLabel, round2, round3, roundHalfEven]
  have hhigh : highPeriodsAll ["t0", "t1"] 5 [[(50 : ℚ), 52], [54, 50]] 2 =
      [⟨"t1", 2, 4/5⟩] := by
    unfold highPeriodsAll
    rw [show List.range 2 = [0, 1] from rfl]
    simp only [List.filterMap_cons, List.filterMap_nil]
    rw [if_neg (by rw [hsc0]; norm_num), if_pos (by rw [hsc1]; norm_num), hP1]
  have hlow : lowPeriodsAll ["t0", "t1"] 5 [[(50 : ℚ), 52], [54, 50]] 2 = [] := by
    unfold lowPeriodsAll
    rw [show List.range 2 = [0, 1] from rfl]
    simp only [List.filterMap_cons, List.filterMap_nil]
    rw [if_neg (by rw [hsc0]; norm_num), if_neg (by rw [hsc0]; norm_num),
      if_pos (by rw [hsc1]; norm_num)]
  refine ⟨rfl, hmean, hspread, hmin, hmax, rfl, ?_, ?_, ?_, ?_, ?_⟩
  · have e : arC5.min_agreement =
        round3 (listMin (agreementScores 5 [[50, 52], [54, 50]] 2)) := rfl
    rw [e, hscores]
    norm_num [listMin, round3, roundHalfEven]
  · have e : arC5.max_agreement =
        round3 (listMax (agreementScores 5 [[50, 52], [54, 50]] 2)) := rfl
    rw [e, hscores]
    norm_num [listMax, round3, roundHalfEven]
  · have e : arC5.mean_agreement =
        round3 (pyMean (agreementScores 5 [[50, 52], [54, 50]] 2)) := rfl
    rw [e, hscores]
    norm_num [pyMean, round3, roundHalfEven]
  · have e : arC5.high_agreement_periods =
        (highPeriodsAll ["t0", "t1"] 5 [[50, 52], [54, 50]] 2).take 5 := rfl
    rw [e, hhigh]
    rfl
  · have e : arC5.low_agreement_periods =
        (lowPeriodsAll ["t0", "t1"] 5 [[50, 52], [54, 50]] 2).take 5 := rfl
    rw [e, hlow]
    rfl

theorem agreement_ok_master {fd : ForecastData} {vn : String} {t : ℚ} {um : Bool}
    {ar : AgreementResult} (h : calculate_model_agreement fd vn t um = .ok ar) :
    ∃ v0 v1 vrest cols,
      agreementValidModels fd vn um = v0 :: v1 :: vrest ∧
      allNums (v0 :: v1 :: vrest) = some cols ∧
      0 < pyValLen v0.2 ∧ t ≠ 0 ∧
      (∀ c ∈ cols, pyValLen v0.2 ≤ c.length) ∧
      ar = mkAgreementResult vn (agreementFieldName fd vn um)
        ((v0 :: v1 :: vrest).map Prod.fst) t (agreementTimes fd) cols (pyValLen v0.2) := by
  unfold calculate_model_agreement at h
  split at h
  next v0 v1 vrest heq1 =>
    split at h
    next => exact PyResult.noConfusion h
    next hn0 =>
      split at h
      next => exact PyResult.noConfusion h
      next hne =>
        split at h
        next => exact PyResult.noConfusion h
        next cols heq2 =>
          split at h
          next => exact PyResult.noConfusion h
          next ht0 =>
            split at h
            next => exact PyResult.noConfusion h
            next hlen =>
              injection h with h
              refine ⟨v0, v1, vrest, cols, heq1, heq2, by omega, ht0, ?_, h.symm⟩
              intro c hc
              by_contra hcl
              have : cols.any (fun c => decide (c.length < pyValLen v0.2)) = true := by
                rw [List.any_eq_true]
                exact ⟨c, hc, by simpa using Nat.lt_of_not_le hcl⟩
              exact hlen this
  next hlt =>
    exact PyResult.noConfusion h

theorem filterMap_if {α β : Type} (p : α → Prop) [DecidablePred p] (f : α → β) (l : List α) :
    l.filterMap (fun a => if p a then some (f a) else none) =
      (l.filter (fun a => decide (p a))).map f := by
  induction l with
  | nil => rfl
  | cons a t ih => by_cases hp : p a <;> simp [hp, ih]

theorem highPeriodsAll_eq (times : List String) (t : ℚ) (cols : List (List ℚ)) (n : ℕ) :
    highPeriodsAll times t cols n =
      ((List.range n).filter
        (fun i => decide ((8 : ℚ)/10 ≤ agreementScore t (spreadAt cols i)))).map
        (mkPeriod times t cols) := by
  unfold highPeriodsAll
  exact filterMap_if _ _ _

theorem lowPeriodsAll_eq (times : List String) (t : ℚ) (cols : List (List ℚ)) (n : ℕ) :
    lowPeriodsAll times t cols n =
      ((List.range n).filter
        (fun i => decide (agreementScore t (spreadAt cols i) ≤ (5 : ℚ)/10))).map
        (mkPeriod times t cols) := by
  unfold lowPeriodsAll
  rw [← filterMap_if (fun i => agreementScore t (spreadAt cols i) ≤ (5 : ℚ)/10)
    (mkPeriod times t cols) (List.range n)]
  apply List.filterMap_congr
  intro i _
  by_cases h1 : (8 : ℚ)/10 ≤ agreementScore t (spreadAt cols i)
  · rw [if_pos h1, if_neg]
    intro h2
    linarith
  · rw [if_neg h1]

/-- C6: in every success result of `calculate_model_agreement`, a timestep is
recorded in `high_agreement_periods` exactly when its raw score is at least
0.8 and in `low_agreement_periods` exactly when it is at most 0.5 (strictly
between enters neither); each result bucket keeps only the first five
qualifying timesteps in timestep order while the `_count` fields count all
qualifying timesteps; and `mean/min/max_agreement` aggregate the entire
rounded per-timestep score sequence. -/
theorem C6_theorem {fd : ForecastData} {vn : String} {t : ℚ} {um : Bool}
    {ar : AgreementResult} (h : calculate_model_agreement fd vn t um = .ok ar) :
    ∃ cols n,
      ar = mkAgreementResult vn (agreementFieldName fd vn um) ar.models t
        (agreementTimes fd) cols n ∧
      ar.high_agreement_periods =
        (((List.range n).filter
          (fun i => decide ((8 : ℚ)/10 ≤ agreementScore t (spreadAt cols i)))).map
          (mkPeriod (agreementTimes fd) t cols)).take 5 ∧
      ar.low_agreement_periods =
        (((List.range n).filter
          (fun i => decide (agreementScore t (spreadAt cols i) ≤ (5 : ℚ)/10))).map
          (mkPeriod (agreementTimes fd) t cols)).take 5 ∧
      ar.high_agreement_count =
        ((List.range n).filter
          (fun i => decide ((8 : ℚ)/10 ≤ agreementScore t (spreadAt cols i)))).length ∧
      ar.low_agreement_count =
        ((List.range n).filter
          (fun i => decide (agreementScore t (spreadAt cols i) ≤ (5 : ℚ)/10))).length ∧
      ar.mean_agreement = round3 (pyMean
        ((List.range n).map (fun i => round3 (agreementScore t (spreadAt cols i))))) ∧
      ar.min_agreement = round3 (listMin
        ((List.range n).map (fun i => round3 (agreementScore t (spreadAt cols i))))) ∧
      ar.max_agreement = round3 (listMax
        ((List.range n).map (fun i => round3 (agreementScore t (spreadAt cols i))))) := by
  obtain ⟨v0, v1, vrest, cols, heq1, heq2, hn, ht, hlen, hst⟩ := agreement_ok_master h
  subst hst
  refine ⟨cols, pyValLen v0.2, rfl, ?_, ?_, ?_, ?_, rfl, rfl, rfl⟩
  · simp only [mkAgreementResult]
    rw [highPeriodsAll_eq]
  · simp only [mkAgreementResult]
    rw [lowPeriodsAll_eq]
  · simp only [mkAgreementResult]
    rw [highPeriodsAll_eq, List.length_map]
  · simp only [mkAgreementResult]
    rw [lowPeriodsAll_eq, List.length_map]

/-- Two models with a perfectly agreeing timestep and a strongly disagreeing
one, for the C6 witness. -/
def fdC6 : ForecastData :=
  [("gfs", [("times", .strs ["t0", "t1"]), ("temperature", .nums [50, 50])]),
   ("ecmwf", [("times", .strs ["t0", "t1"]), ("temperature", .nums [62, 50])])]

/-- The agreement payload the code computes on `fdC6` at threshold 5. -/
def arC6 : AgreementResult :=
  mkAgreementResult "temperature" "temperature" ["gfs", "ecmwf"] 5 ["t0", "t1"]
    [[50, 50], [62, 50]] 2

/-- C6 (witness): the bucket characterization applied to the concrete accepted
dataset `fdC6`. -/
theorem C6_witness :
    ∃ cols n,
      arC6 = mkAgreementResult "temperature" (agreementFieldName fdC6 "temperature" true)
        arC6.models 5 (agreementTimes fdC6) cols n ∧
      arC6.high_agreement_periods =
        (((List.range n).filter
          (fun i => decide ((8 : ℚ)/10 ≤ agreementScore 5 (spreadAt cols i)))).map
          (mkPeriod (agreementTimes fdC6) 5 cols)).take 5 ∧
      arC6.low_agreement_periods =
        (((List.range n).filter
          (fun i => decide (agreementScore 5 (spreadAt cols i) ≤ (5 : ℚ)/10))).map
          (mkPeriod (agreementTimes fdC6) 5 cols)).take 5 ∧
      arC6.high_agreement_count =
        ((List.range n).filter
          (fun i => decide ((8 : ℚ)/10 ≤ agreementScore 5 (spreadAt cols i)))).length ∧
      arC6.low_agreement_count =
        ((List.range n).filter
          (fun i => decide (agreementScore 5 (spreadAt cols i) ≤ (5 : ℚ)/10))).length ∧
      arC6.mean_agreement = round3 (pyMean
        ((List.range n).map (fun i => round3 (agreementScore 5 (spreadAt cols i))))) ∧
      arC6.min_agreement = round3 (listMin
        ((List.range n).map (fun i => round3 (agreementScore 5 (spreadAt cols i))))) ∧
      arC6.max_agreement = round3 (listMax
        ((List.range n).map (fun i => round3 (agreementScore 5 (spreadAt cols i))))) :=
  C6_theorem (show calculate_model_agreement fdC6 "temperature" 5 true = .ok arC6 from rfl)

/-- C10: in every success result of `calculate_model_agreement`, each recorded
high or low agreement period descriptor carries either an in-range entry of
the representative times array or, when its timestep index is beyond the end
of that array, the placeholder label `timestep_{i}`; the times array is never
indexed out of range. -/
theorem C10_theorem {fd : ForecastData} {vn : String} {t : ℚ} {um : Bool}
    {ar : AgreementResult} (h : calculate_model_agreement fd vn t um = .ok ar) :
    ∃ n, ∀ p ∈ ar.high_agreement_periods ++ ar.low_agreement_periods,
      ∃ i, i < n ∧
        ((i < (agreementTimes fd).length ∧ p.time = (agreementTimes fd).getD i "") ∨
         ((agreementTimes fd).length ≤ i ∧ p.time = "timestep_" ++ toString i)) := by
  obtain ⟨v0, v1, vrest, cols, heq1, heq2, hn, ht, hlen, hst⟩ := agreement_ok_master h
  subst hst
  refine ⟨pyValLen v0.2, ?_⟩
  intro p hp
  have hp2 : p ∈ highPeriodsAll (agreementTimes fd) t cols (pyValLen v0.2) ∨
      p ∈ lowPeriodsAll (agreementTimes fd) t cols (pyValLen v0.2) := by
    rcases List.mem_append.mp hp with hmem | hmem
    · exact Or.inl (List.mem_of_mem_take hmem)
    · exact Or.inr (List.mem_of_mem_take hmem)
  have hper : ∃ i, i < pyValLen v0.2 ∧ p = mkPeriod (agreementTimes fd) t cols i := by
    rcases hp2 with hmem | hmem
    · rw [highPeriodsAll_eq] at hmem
      rcases List.mem_map.mp hmem with ⟨i, hi, hpi⟩
      exact ⟨i, List.mem_range.mp (List.mem_of_mem_filter hi), hpi.symm⟩
    · rw [lowPeriodsAll_eq] at hmem
      rcases List.mem_map.mp hmem with ⟨i, hi, hpi⟩
      exact ⟨i, List.mem_range.mp (List.mem_of_mem_filter hi), hpi.symm⟩
  rcases hper with ⟨i, hi, rfl⟩
  refine ⟨i, hi, ?_⟩
  unfold mkPeriod timeLabel
  by_cases hit : i < (agreementTimes fd).length
  · exact Or.inl ⟨hit, by rw [if_pos hit]⟩
  · exact Or.inr ⟨Nat.le_of_not_lt hit, by rw [if_neg hit]⟩

/-- Two models with two timesteps but a times array of length one, for the C10
witness: the second period descriptor gets the placeholder label. -/
def fdC10 : ForecastData :=
  [("gfs", [("times", .strs ["t0"]), ("temperature", .nums [50, 50])]),
   ("ecmwf", [("times", .strs ["t0"]), ("temperature", .nums [50, 50])])]

/-- The agreement payload the code computes on `fdC10` at threshold 5. -/
def arC10 : AgreementResult :=
  mkAgreementResult "temperature" "temperature" ["gfs", "ecmwf"] 5 ["t0"]
    [[50, 50], [50, 50]] 2

/-- C10 (witness): the period-label theorem applied to `fdC10`, a dataset
whose times array is shorter than the number of timesteps, together with the
concrete observation that the out-of-range timestep is labelled
`timestep_1`. -/
theorem C10_witness :
    (∃ n, ∀ p ∈ arC10.high_agreement_periods ++ arC10.low_agreement_periods,
      ∃ i, i < n ∧
        ((i < (agreementTimes fdC10).length ∧ p.time = (agreementTimes fdC10).getD i "") ∨
         ((agreementTimes fdC10).length ≤ i ∧ p.time = "timestep_" ++ toString i))) ∧
    (arC10.high_agreement_periods.map AgreementPeriod.time = ["t0", "timestep_1"]) := by
  constructor
  · exact C10_theorem
      (show calculate_model_agreement fdC10 "temperature" 5 true = .ok arC10 from rfl)
  · have hv0 : valuesAtTime [[(50 : ℚ), 50], [50, 50]] 0 = [50, 50] := by
      norm_num [valuesAtTime]
    have hv1 : valuesAtTime [[(50 : ℚ), 50], [50, 50]] 1 = [50, 50] := by
      norm_num [valuesAtTime]
    have hsp0 : spreadAt [[(50 : ℚ), 50], [50, 50]] 0 = 0 := by
      unfold spreadAt
      rw [hv0]
      norm_num [listMin, listMax]
    have hsp1 : spreadAt [[(50 : ℚ), 50], [50, 50]] 1 = 0 := by
      unfold spreadAt
      rw [hv1]
      norm_num [listMin, listMax]
    have hsc0 : agreementScore 5 (spreadAt [[(50 : ℚ), 50], [50, 50]] 0) = 1 := by
      rw [hsp0]
      norm_num [agreementScore]
    have hsc1 : agreementScore 5 (spreadAt [[(50 : ℚ), 50], [50, 50]] 1) = 1 := by
      rw [hsp1]
      norm_num [agreementScore]
    have e : arC10.high_agreement_periods =
        (highPeriodsAll ["t0"] 5 [[50, 50], [50, 50]] 2).take 5 := rfl
    rw [e]
    unfold highPeriodsAll
    rw [show List.range 2 = [0, 1] from rfl]
    simp only [List.filterMap_cons, List.filterMap_nil]
    rw [if_pos (by rw [hsc0]; norm_num), if_pos (by rw [hsc1]; norm_num)]
    rfl

/-- C7: `calculate_ensemble_statistics` classifies the dataset as daily
exactly when the first valid model has a `dates` key or a `temperature_max`
key, and resolves the variable accordingly: hourly keeps the name unchanged;
daily temperature resolves by `use_max`; daily wind_speed to
`wind_speed_max`; daily precipitation to `precipitation`. -/
theorem C7_theorem {fd : ForecastData} {vn : String} {um : Bool} {st : EnsembleStats}
    {fm : String × PyDict} {rest : ForecastData} (hvm : validModelsOf fd = fm :: rest)
    (h : calculate_ensemble_statistics fd vn um = .ok st) :
    st.is_daily = (dictContains fm.2 "dates" || dictContains fm.2 "temperature_max") ∧
    (st.is_daily = false → st.field = vn) ∧
    (st.is_daily = true → vn = "temperature" → um = true → st.field = "temperature_max") ∧
    (st.is_daily = true → vn = "temperature" → um = false → st.field = "temperature_min") ∧
    (st.is_daily = true → vn = "wind_speed" → st.field = "wind_speed_max") ∧
    (st.is_daily = true → vn = "precipitation" → st.field = "precipitation") := by
  obtain ⟨fm2, rest2, m0, mrest, cols, heq1, heq2, hlens, hbranch, hst⟩ := stats_ok_master h
  rw [hvm] at heq1
  injection heq1 with e1 e2
  subst e1
  subst hst
  have hdaily : (mkEnsembleStats vn (resolveFieldName (_is_daily_data fm.2) vn um)
      (_is_daily_data fm.2) ((m0 :: mrest).map Prod.fst)
      (statsTimes (fm :: rest2) (resolveFieldName (_is_daily_data fm.2) vn um))
      cols (pyValLen m0.2)).is_daily = _is_daily_data fm.2 := rfl
  have hfield : (mkEnsembleStats vn (resolveFieldName (_is_daily_data fm.2) vn um)
      (_is_daily_data fm.2) ((m0 :: mrest).map Prod.fst)
      (statsTimes (fm :: rest2) (resolveFieldName (_is_daily_data fm.2) vn um))
      cols (pyValLen m0.2)).field = resolveFieldName (_is_daily_data fm.2) vn um := rfl
  rw [hdaily, hfield]
  refine ⟨rfl, ?_, ?_, ?_, ?_, ?_⟩
  · intro hb
    rw [resolveFieldName, if_neg (by rw [hb]; exact Bool.false_ne_true)]
  · intro hb hvt hum
    rw [resolveFieldName, if_pos hb, if_pos hvt, if_pos hum]
  · intro hb hvt hum
    rw [resolveFieldName, if_pos hb, if_pos hvt, if_neg (by rw [hum]; exact Bool.false_ne_true)]
  · intro hb hvt
    rw [resolveFieldName, if_pos hb, if_neg (by rw [hvt]; decide), if_pos hvt]
  · intro hb hvt
    rw [resolveFieldName, if_pos hb, if_neg (by rw [hvt]; decide),
      if_neg (by rw [hvt]; decide), if_pos hvt]

/-- A daily dataset whose first valid model has `temperature_max` but no
`dates` key, for the C7 witness. -/
def fdC7 : ForecastData :=
  [("gfs", [("temperature_max", .nums [50, 52])]),
   ("ecmwf", [("temperature_max", .nums [54, 50])])]

/-- The statistics payload the code computes on `fdC7`. -/
def stC7 : EnsembleStats :=
  mkEnsembleStats "temperature" "temperature_max" true ["gfs", "ecmwf"] []
    [[50, 52], [54, 50]] 2

/-- C7 (witness): on `fdC7` the dataset is classified daily on the strength of
`temperature_max` alone and the variable `temperature` resolves to
`temperature_max`. -/
theorem C7_witness : stC7.is_daily = true ∧ stC7.field = "temperature_max" := by
  have hvm : validModelsOf fdC7 =
      ("gfs", [("temperature_max", PyVal.nums [50, 52])]) ::
        [("ecmwf", [("temperature_max", PyVal.nums [54, 50])])] := rfl
  have h := C7_theorem hvm
    (show calculate_ensemble_statistics fdC7 "temperature" true = .ok stC7 from rfl)
  have hd : stC7.is_daily = true := by
    rw [h.1]
    rfl
  exact ⟨hd, h.2.2.1 hd rfl rfl⟩

theorem fieldModelValues_nil {l : ForecastData} {f : String}
    (h : ∀ p ∈ l, dictContains p.2 f = false) : fieldModelValues l f = [] := by
  unfold fieldModelValues
  rw [List.filterMap_eq_nil_iff]
  intro p hp
  have hc := h p hp
  unfold dictContains at hc
  rcases hl : lookupD p.2 f with _ | v
  · rfl
  · rw [hl] at hc
    simp at hc

theorem fieldModelValues_map_fst (l : ForecastData) (f : String) :
    (fieldModelValues l f).map Prod.fst =
      (l.filter (fun p => dictContains p.2 f)).map Prod.fst := by
  induction l with
  | nil => rfl
  | cons p t ih =>
    unfold fieldModelValues at ih ⊢
    rcases hl : lookupD p.2 f with _ | v
    · simp [List.filterMap_cons, List.filter_cons, hl, dictContains, ih]
    · simp [List.filterMap_cons, List.filter_cons, hl, dictContains, ih]

/-- C8: when at least one model is valid but the resolved field is absent from
every valid model, `calculate_ensemble_statistics` returns an error payload
naming the attempted field and listing the keys of the first valid model; and
in any success result the `models` list is exactly the valid models carrying
the field, in order — a valid model merely lacking the field is silently
excluded without failing the computation. -/
theorem C8_theorem {fd : ForecastData} {vn : String} {um : Bool}
    {fm : String × PyDict} {rest : ForecastData} (hvm : validModelsOf fd = fm :: rest) :
    ((∀ p ∈ validModelsOf fd,
        dictContains p.2 (resolveFieldName (_is_daily_data fm.2) vn um) = false) →
      calculate_ensemble_statistics fd vn um = .errorDict
        ("Field " ++ resolveFieldName (_is_daily_data fm.2) vn um ++
         " not found in model data. Available keys: " ++
         String.intercalate ", " (dictKeys fm.2))) ∧
    (∀ st, calculate_ensemble_statistics fd vn um = .ok st →
      st.models = ((validModelsOf fd).filter
        (fun p => dictContains p.2 (resolveFieldName (_is_daily_data fm.2) vn um))).map
        Prod.fst) := by
  constructor
  · intro hnone
    have hmv : fieldModelValues (fm :: rest)
        (resolveFieldName (_is_daily_data fm.2) vn um) = [] := by
      refine fieldModelValues_nil ?_
      rw [← hvm]
      exact hnone
    unfold calculate_ensemble_statistics
    rw [hvm]
    dsimp only
    rw [hmv]
    rfl
  · intro st h
    obtain ⟨fm2, rest2, m0, mrest, cols, heq1, heq2, hlens, hbranch, hst⟩ := stats_ok_master h
    rw [hvm] at heq1
    injection heq1 with e1 e2
    subst e1
    subst e2
    have hmodels : st.models = (m0 :: mrest).map Prod.fst := by
      rw [hst]
      rfl
    rw [hmodels, ← heq2, fieldModelValues_map_fst, hvm]

/-- Two valid hourly models, neither carrying `temperature`. -/
def fdC8a : ForecastData :=
  [("gfs", [("times", .strs ["t0"]), ("wind_speed", .nums [10])]),
   ("ecmwf", [("times", .strs ["t0"]), ("wind_speed", .nums [12])])]

/-- Three valid hourly models, the middle one lacking `temperature`. -/
def fdC8b : ForecastData :=
  [("gfs", [("times", .strs ["t0"]), ("temperature", .nums [50])]),
   ("noaa", [("times", .strs ["t0"]), ("wind_speed", .nums [10])]),
   ("ecmwf", [("times", .strs ["t0"]), ("temperature", .nums [54])])]

/-- The statistics payload the code computes on `fdC8b`: `noaa` is silently
excluded, the other two models are processed. -/
def stC8 : EnsembleStats :=
  mkEnsembleStats "temperature" "temperature" false ["gfs", "ecmwf"] ["t0"]
    [[50], [54]] 1

/-- C8 (witness): the field-not-found payload on `fdC8a` names the field and
the first model's keys, and on `fdC8b` the middle model lacking the field is
excluded while the others are processed. -/
theorem C8_witness :
    calculate_ensemble_statistics fdC8a "temperature" true = .errorDict
      "Field temperature not found in model data. Available keys: times, wind_speed" ∧
    stC8.models = ["gfs", "ecmwf"] := by
  constructor
  · have hvm : validModelsOf fdC8a =
        ("gfs", [("times", PyVal.strs ["t0"]), ("wind_speed", PyVal.nums [10])]) ::
          [("ecmwf", [("times", PyVal.strs ["t0"]), ("wind_speed", PyVal.nums [12])])] := rfl
    exact (C8_theorem hvm).1 (by decide)
  · have hvm2 : validModelsOf fdC8b =
        ("gfs", [("times", PyVal.strs ["t0"]), ("temperature", PyVal.nums [50])]) ::
          [("noaa", [("times", PyVal.strs ["t0"]), ("wind_speed", PyVal.nums [10])]),
           ("ecmwf", [("times", PyVal.strs ["t0"]), ("temperature", PyVal.nums [54])])] := rfl
    have h2 := (C8_theorem hvm2).2 stC8
      (show calculate_ensemble_statistics fdC8b "temperature" true = .ok stC8 from rfl)
    exact h2.trans (by decide)

theorem addTier_ok {acc : PyResult (List (String × VarSummary))} {key : String}
    {call : PyResult EnsembleStats} {lowT modT : ℚ} {vars2 : List (String × VarSummary)}
    (h : addTier acc key call lowT modT = .ok vars2) :
    ∃ vars, acc = .ok vars ∧
      ((∃ m, call = .errorDict m ∧ vars2 = vars) ∨
       (∃ st v, call = .ok st ∧ tierSummary st lowT modT = .ok v ∧
         vars2 = dictInsert vars key v)) := by
  unfold addTier at h
  split at h
  next vars =>
    split at h
    next e => exact PyResult.noConfusion h
    next m =>
      injection h with h
      exact ⟨vars, rfl, Or.inl ⟨m, rfl, h.symm⟩⟩
    next st =>
      split at h
      next v heq =>
        injection h with h
        exact ⟨vars, rfl, Or.inr ⟨st, v, rfl, heq, h.symm⟩⟩
      next m heq => exact PyResult.noConfusion h
      next e heq => exact PyResult.noConfusion h
  next other hne => exact absurd h (by rcases other with _ | _ | _ <;> simp_all)

theorem lookupD_map_replace_self {α : Type} (t : List (String × α)) (k : String) (v : α)
    (hk : (lookupD t k).isSome = true) :
    lookupD (t.map (fun p => if p.1 = k then (k, v) else p)) k = some v := by
  induction t with
  | nil => simp [lookupD] at hk
  | cons p t ih =>
    by_cases hp : p.1 = k
    · simp only [List.map_cons, if_pos hp]
      unfold lookupD
      rw [if_pos rfl]
    · unfold lookupD at hk
      rw [if_neg hp] at hk
      simp only [List.map_cons, if_neg hp]
      unfold lookupD
      rw [if_neg hp]
      exact ih hk

theorem lookupD_map_replace_other {α : Type} (t : List (String × α)) (k k2 : String)
    (hne : k2 ≠ k) (v : α) :
    lookupD (t.map (fun p => if p.1 = k then (k, v) else p)) k2 = lookupD t k2 := by
  induction t with
  | nil => rfl
  | cons p t ih =>
    by_cases hp : p.1 = k
    · simp only [List.map_cons, if_pos hp]
      unfold lookupD
      rw [if_neg (show ¬ k = k2 from fun he => hne he.symm),
        if_neg (show ¬ p.1 = k2 from by rw [hp]; exact fun he => hne he.symm)]
      exact ih
    · simp only [List.map_cons, if_neg hp]
      unfold lookupD
      by_cases hp2 : p.1 = k2
      · rw [if_pos hp2, if_pos hp2]
      · rw [if_neg hp2, if_neg hp2]
        exact ih

theorem lookupD_append_single_self {α : Type} (t : List (String × α)) (k : String) (v : α)
    (hk : lookupD t k = none) : lookupD (t ++ [(k, v)]) k = some v := by
  induction t with
  | nil => simp [lookupD]
  | cons p t ih =>
    unfold lookupD at hk ⊢
    by_cases hp : p.1 = k
    · rw [if_pos hp] at hk
      exact Option.noConfusion hk
    · rw [if_neg hp] at hk
      simp only [List.cons_append]
      rw [if_neg hp]
      exact ih hk

theorem lookupD_append_single_other {α : Type} (t : List (String × α)) (k k2 : String)
    (hne : k2 ≠ k) (v : α) : lookupD (t ++ [(k, v)]) k2 = lookupD t k2 := by
  induction t with
  | nil => simp [lookupD, show ¬ k = k2 from fun he => hne he.symm]
  | cons p t ih =>
    simp only [List.cons_append]
    unfold lookupD
    by_cases hp2 : p.1 = k2
    · rw [if_pos hp2, if_pos hp2]
    · rw [if_neg hp2, if_neg hp2]
      exact ih

theorem lookupD_dictInsert_self {α : Type} (d : List (String × α)) (k : String) (v : α) :
    lookupD (dictInsert d k v) k = some v := by
  unfold dictInsert
  split_ifs with hk
  · exact lookupD_map_replace_self d k v hk
  · exact lookupD_append_single_self d k v (Option.not_isSome_iff_eq_none.mp hk)

theorem lookupD_dictInsert_other {α : Type} (d : List (String × α)) (k k2 : String)
    (hne : k2 ≠ k) (v : α) : lookupD (dictInsert d k v) k2 = lookupD d k2 := by
  unfold dictInsert
  split_ifs with hk
  · exact lookupD_map_replace_other d k k2 hne v
  · exact lookupD_append_single_other d k k2 hne v

/-- C9: for a daily-shaped dataset, `summarize_forecast_uncertainty`
classifies each temperature tier on its raw average spread — `low` below 3,
`moderate` below 7, `high` otherwise — and a tier whose underlying
`calculate_ensemble_statistics` call returns an error payload is omitted from
the `variables` map entirely while the other tiers are still produced. -/
theorem C9_theorem {fd : ForecastData} {fm : String × PyDict} {rest : ForecastData}
    {s : UncertaintySummary} (hvm : validModelsOf fd = fm :: rest)
    (hd : _is_daily_data fm.2 = true)
    (h : summarize_forecast_uncertainty fd = .ok s) :
    (∀ st, calculate_ensemble_statistics fd "temperature" true = .ok st →
      ∃ v, lookupD s.variablesMap "temperature_max" = some v ∧
        v.uncertainty_level =
          (if pyMean st.spread < 3 then "low"
           else if pyMean st.spread < 7 then "moderate" else "high")) ∧
    (∀ m, calculate_ensemble_statistics fd "temperature" true = .errorDict m →
      lookupD s.variablesMap "temperature_max" = none) ∧
    (∀ st, calculate_ensemble_statistics fd "temperature" false = .ok st →
      ∃ v, lookupD s.variablesMap "temperature_min" = some v ∧
        v.uncertainty_level =
          (if pyMean st.spread < 3 then "low"
           else if pyMean st.spread < 7 then "moderate" else "high")) ∧
    (∀ m, calculate_ensemble_statistics fd "temperature" false = .errorDict m →
      lookupD s.variablesMap "temperature_min" = none) := by
  unfold summarize_forecast_uncertainty at h
  rw [hvm] at h
  dsimp only at h
  rw [if_pos hd] at h
  split at h
  case _ vars heq4 =>
    injection h with h
    have hsv : s.variablesMap = vars := by
      rw [← h]
    obtain ⟨vars3, hr3, hrel4⟩ := addTier_ok heq4
    obtain ⟨vars2, hr2, hrel3⟩ := addTier_ok hr3
    obtain ⟨vars1, hr1, hrel2⟩ := addTier_ok hr2
    obtain ⟨vars0, hr0, hrel1⟩ := addTier_ok hr1
    injection hr0 with hv0
    subst hv0
    have keep2 : ∀ key : String, key ≠ "temperature_min" →
        lookupD vars2 key = lookupD vars1 key := by
      intro key hne
      rcases hrel2 with ⟨m2, _, hv2⟩ | ⟨st2, v2, _, _, hv2⟩
      · rw [hv2]
      · rw [hv2]
        exact lookupD_dictInsert_other _ _ _ hne _
    have keep3 : ∀ key : String, key ≠ "wind_speed_max" →
        lookupD vars3 key = lookupD vars2 key := by
      intro key hne
      rcases hrel3 with ⟨m3, _, hv3⟩ | ⟨st3, v3, _, _, hv3⟩
      · rw [hv3]
      · rw [hv3]
        exact lookupD_dictInsert_other _ _ _ hne _
    have keep4 : ∀ key : String, key ≠ "precipitation" →
        lookupD vars key = lookupD vars3 key := by
      intro key hne
      rcases hrel4 with ⟨m4, _, hv4⟩ | ⟨st4, v4, _, _, hv4⟩
      · rw [hv4]
      · rw [hv4]
        exact lookupD_dictInsert_other _ _ _ hne _
    have lift_tmax : lookupD vars "temperature_max" = lookupD vars1 "temperature_max" := by
      rw [keep4 _ (by decide), keep3 _ (by decide), keep2 _ (by decide)]
    have lift_tmin : lookupD vars "temperature_min" = lookupD vars2 "temperature_min" := by
      rw [keep4 _ (by decide), keep3 _ (by decide)]
    have tier_level : ∀ (st : EnsembleStats) (v : VarSummary),
        tierSummary st 3 7 = .ok v →
        v.uncertainty_level =
          (if pyMean st.spread < 3 then "low"
           else if pyMean st.spread < 7 then "moderate" else "high") := by
      intro st v htier
      unfold tierSummary at htier
      split at htier
      · exact PyResult.noConfusion htier
      · injection htier with htier
        rw [← htier]
        rfl
    refine ⟨?_, ?_, ?_, ?_⟩
    · intro st hS1
      rcases hrel1 with ⟨m1, hm1, _⟩ | ⟨st1, v1, hok1, htier1, hins1⟩
      · rw [hS1] at hm1
        exact PyResult.noConfusion hm1
      · rw [hS1] at hok1
        injection hok1 with he1
        subst he1
        refine ⟨v1, ?_, tier_level _ _ htier1⟩
        rw [hsv, lift_tmax, hins1]
        exact lookupD_dictInsert_self _ _ _
    · intro m hS1
      rcases hrel1 with ⟨m1, hm1, hv1⟩ | ⟨st1, v1, hok1, _, _⟩
      · rw [hsv, lift_tmax, hv1]
        rfl
      · rw [hS1] at hok1
        exact PyResult.noConfusion hok1
    · intro st hS2
      rcases hrel2 with ⟨m2, hm2, _⟩ | ⟨st2, v2, hok2, htier2, hins2⟩
      · rw [hS2] at hm2
        exact PyResult.noConfusion hm2
      · rw [hS2] at hok2
        injection hok2 with he2
        subst he2
        refine ⟨v2, ?_, tier_level _ _ htier2⟩
        rw [hsv, lift_tmin, hins2]
        exact lookupD_dictInsert_self _ _ _
    · intro m hS2
      rcases hrel2 with ⟨m2, hm2, hv2⟩ | ⟨st2, v2, hok2, _, _⟩
      · rw [hsv, lift_tmin, hv2]
        rcases hrel1 with ⟨m1, _, hv1⟩ | ⟨st1, v1, _, _, hv1⟩
        · rw [hv1]
          rfl
        · rw [hv1, lookupD_dictInsert_other _ _ _ (by decide) _]
          rfl
      · rw [hS2] at hok2
        exact PyResult.noConfusion hok2
  case _ m heq => exact PyResult.noConfusion h
  case _ e heq => exact PyResult.noConfusion h

/-- A daily two-model dataset carrying only `temperature_max` (no
`temperature_min`, `wind_speed_max` or `precipitation`). -/
def fdC9 : ForecastData :=
  [("gfs", [("dates", .strs ["d0"]), ("temperature_max", .nums [50])]),
   ("ecmwf", [("dates", .strs ["d0"]), ("temperature_max", .nums [54])])]

/-- The `temperature_max` statistics payload the code computes on `fdC9`. -/
def stC9max : EnsembleStats :=
  mkEnsembleStats "temperature" "temperature_max" true ["gfs", "ecmwf"] ["d0"]
    [[50], [54]] 1

/-- The `temperature_max` summary entry the code computes on `fdC9`. -/
def vC9 : VarSummary :=
  ⟨round2 (pyMean stC9max.spread), round2 (listMax stC9max.spread),
   round2 (pyMean stC9max.ensemble_std), uncertaintyLevel 3 7 (pyMean stC9max.spread)⟩

/-- The uncertainty summary the code computes on `fdC9`: only the
`temperature_max` tier is present. -/
def sC9 : UncertaintySummary := ⟨2, ["gfs", "ecmwf"], [("temperature_max", vC9)]⟩

/-- C9 (witness): on `fdC9` the summary holds a `temperature_max` tier
classified `moderate` (average spread 4) while the failing `temperature_min`
tier is omitted from the variables map. -/
theorem C9_witness :
    (∃ v, lookupD sC9.variablesMap "temperature_max" = some v ∧
      v.uncertainty_level = "moderate") ∧
    lookupD sC9.variablesMap "temperature_min" = none := by
  have hvm : validModelsOf fdC9 =
      ("gfs", [("dates", PyVal.strs ["d0"]), ("temperature_max", PyVal.nums [50])]) ::
        [("ecmwf", [("dates", PyVal.strs ["d0"]), ("temperature_max", PyVal.nums [54])])] := rfl
  have h := C9_theorem hvm rfl (show summarize_forecast_uncertainty fdC9 = .ok sC9 from rfl)
  constructor
  · obtain ⟨v, hl, hu⟩ := h.1 stC9max
      (show calculate_ensemble_statistics fdC9 "temperature" true = .ok stC9max from rfl)
    refine ⟨v, hl, ?_⟩
    rw [hu]
    have hsp : stC9max.spread = [4] := by
      have e : stC9max.spread = [round2 (listMax (valuesAtTime [[50], [54]] 0) -
          listMin (valuesAtTime [[50], [54]] 0))] := rfl
      rw [e]
      norm_num [valuesAtTime, listMin, listMax, round2, roundHalfEven]
    rw [hsp]
    norm_num [pyMean]
  · exact h.2.2.2
      "Field temperature_min not found in model data. Available keys: dates, temperature_max"
      (show calculate_ensemble_statistics fdC9 "temperature" false = .errorDict
        "Field temperature_min not found in model data. Available keys: dates, temperature_max"
        from rfl)
